import Mathlib

/-!
Verification development for the predictive closure-signal engine of the
is-retiro-open repository.

The TypeScript sources are embedded shallowly:

* machine timestamps (JS `Date.getTime()` millisecond values) are `Int`;
* optional string fields (`string | undefined`) are `Option String`, and the
  JS truthiness test `if (value)` on such a field is translated as a match
  plus an explicit emptiness test, since the empty string is falsy in JS;
* JS runtime-library behaviour that is not part of the repository
  (ISO-8601 date parsing via `new Date`, `toISOString`, the
  `toLocaleDateString` calendar-date key in the Europe/Madrid timezone,
  `TextDecoder` UTF-8 decoding, and the `<alert>...</alert>` RegExp scan)
  is modelled by an abstract `Runtime` environment; every theorem below is
  proved for an arbitrary such environment;
* JS `Array.prototype.sort`, which is guaranteed stable, is modelled by
  `List.insertionSort`, which is stable for a total `≤` comparator.
-/

/-- Severity levels recognised by `normalizeSeverity` in
`api/aemet-warnings.ts` (the `WarningSeverity` union of `src/types.ts`
minus its `null` case, which is `Option.none` here). -/
inductive Severity where
  | minor
  | moderate
  | severe
  | extreme
deriving DecidableEq, Repr

/-- Numeric rank of each severity, `WARNING_SEVERITY_RANK` in the source. -/
def severityRank : Severity → Nat
  | .minor => 1
  | .moderate => 2
  | .severe => 3
  | .extreme => 4

/-- One weather-warning entry, the `AemetWarning` interface of
`api/aemet-warnings.ts`.  Every field is optional there. -/
structure AemetWarning where
  onset : Option String
  expires : Option String
  nivel : Option String
  fenomeno : Option String
  zona : Option String
deriving DecidableEq, Repr

/-- Abstract model of the JS runtime-library functions the source relies
on: `parse` models `new Date(s).getTime()` returning `none` on an invalid
date, `dateKey` models `getMadridDateKey` (the en-CA local date string in
the Europe/Madrid timezone), `toIso` models `Date.prototype.toISOString`,
`decode` models `TextDecoder("utf-8").decode`, and `alertMatches` models
the global RegExp match for `<alert ...>...</alert>` sections. -/
structure Runtime where
  parse : String → Option Int
  dateKey : Int → String
  toIso : Int → String
  decode : List Nat → String
  alertMatches : String → List String

/-- The constant `TAR_BLOCK_SIZE` of the source. -/
def TAR_BLOCK_SIZE : Nat := 512

/-- The constant `CLOSING_SOON_WINDOW_MS` of the source (two hours). -/
def CLOSING_SOON_WINDOW_MS : Int := 2 * 60 * 60 * 1000

/-- The constant `MADRID_RETIRO_ZONE` of the source. -/
def MADRID_RETIRO_ZONE : String := "722802"

/-- The constant `RELEVANT_WARNING_PREFIXES` of the source. -/
def RELEVANT_WARNING_PREFIXES : List String := ["VI", "NE"]

/-- Model of `String.prototype.includes`: `containsSubstr s pat` is true
iff `pat` occurs as a contiguous substring of `s`. -/
def containsSubstr (s pat : String) : Bool :=
  (List.range (s.data.length + 1)).any (fun i => pat.data.isPrefixOf (s.data.drop i))

/-- Model of JS `String.prototype.trim`: drop whitespace from both ends.
Implemented structurally on the character list so that it reduces inside
the kernel (the built-in `String.trim` recurses on byte positions and does
not). -/
def jsTrim (s : String) : String :=
  String.mk (((s.data.dropWhile Char.isWhitespace).reverse.dropWhile
    Char.isWhitespace).reverse)

/-- Model of JS `String.prototype.toUpperCase`, structurally on the
character list. -/
def jsToUpper (s : String) : String :=
  String.mk (s.data.map Char.toUpper)

/-- Model of JS `String.prototype.toLowerCase`, structurally on the
character list. -/
def jsToLower (s : String) : String :=
  String.mk (s.data.map Char.toLower)

/-- Model of the source expression
`fenomeno.split(";")[0]?.trim().toUpperCase()`: the segment before the
first semicolon (the whole string when there is none), trimmed and
upper-cased. -/
def jsLeadingCode (s : String) : String :=
  jsToUpper (jsTrim (String.mk (s.data.takeWhile (fun c => c != ';'))))

/-- `normalizeSeverity` from `api/aemet-warnings.ts`: lower-case the value
and keep it only when it is one of the four known severities.  The JS
guard `if (!value) return null` also catches the empty string. -/
def normalizeSeverity (value : Option String) : Option Severity :=
  match value with
  | none => none
  | some s =>
    if s = "" then none
    else
      let normalized := jsToLower s
      if normalized = "minor" then some .minor
      else if normalized = "moderate" then some .moderate
      else if normalized = "severe" then some .severe
      else if normalized = "extreme" then some .extreme
      else none

/-- `pickHighestSeverity` from `api/aemet-warnings.ts`: left fold keeping
the highest-ranked parseable severity. -/
def pickHighestSeverity (warnings : List AemetWarning) : Option Severity :=
  warnings.foldl
    (fun highest warning =>
      match normalizeSeverity warning.nivel with
      | none => highest
      | some current =>
        match highest with
        | none => some current
        | some h => if severityRank h < severityRank current then some current else some h)
    none

/-- `isWarningActive` from `api/aemet-warnings.ts`.  Each bound is checked
only when its field is truthy (present and non-empty); a truthy bound that
fails to parse forces the result to `false`. -/
def isWarningActive (env : Runtime) (warning : AemetWarning) (now : Int) : Bool :=
  (match warning.onset with
   | none => true
   | some s =>
     if s = "" then true
     else
       match env.parse s with
       | none => false
       | some onset => decide (onset ≤ now)) &&
  (match warning.expires with
   | none => true
   | some s =>
     if s = "" then true
     else
       match env.parse s with
       | none => false
       | some expires => decide (now < expires))

/-- `isRelevantWarning` from `api/aemet-warnings.ts`: requires a truthy
`fenomeno`, a truthy `zona` containing `MADRID_RETIRO_ZONE`, and a leading
phenomenon code (before the first semicolon, trimmed, upper-cased) among
`RELEVANT_WARNING_PREFIXES`. -/
def isRelevantWarning (warning : AemetWarning) : Bool :=
  match warning.fenomeno with
  | none => false
  | some fenomeno =>
    if fenomeno = "" then false
    else
      match warning.zona with
      | none => false
      | some zona =>
        if zona = "" then false
        else if !containsSubstr zona MADRID_RETIRO_ZONE then false
        else
          let warningCode := jsLeadingCode fenomeno
          if warningCode = "" then false
          else RELEVANT_WARNING_PREFIXES.contains warningCode

/-- The relation by which `buildWarningSignal` sorts upcoming entries:
ascending parsed onset time (the JS comparator
`a.onset.getTime() - b.onset.getTime()`). -/
def onsetLE (a b : AemetWarning × Int) : Prop := a.2 ≤ b.2

instance : DecidableRel onsetLE := fun a b => Int.decLe a.2 b.2

/-- The upcoming-entry computation inside `buildWarningSignal`: each
relevant warning with a truthy `onset` that parses to an instant strictly
after `now` is paired with that instant; everything else is dropped
(`.map` returning `null` plus `.filter` in the source). -/
def upcomingEntries (env : Runtime) (warnings : List AemetWarning) (now : Int) :
    List (AemetWarning × Int) :=
  warnings.filterMap (fun warning =>
    match warning.onset with
    | none => none
    | some s =>
      if s = "" then none
      else
        match env.parse s with
        | none => none
        | some onset => if onset ≤ now then none else some (warning, onset))

/-- First element of a list achieving the minimal onset time, with ties
broken in favour of the earlier position.  This is what taking the head of
a stable ascending sort computes; it is used to state and prove facts
about the sorted selection in `buildWarningSignal`. -/
def firstMin : List (AemetWarning × Int) → Option (AemetWarning × Int)
  | [] => none
  | e :: es =>
    match firstMin es with
    | none => some e
    | some m => some (if e.2 ≤ m.2 then e else m)

/-- The shape returned by `buildWarningSignal` in the source
(`Omit<AemetWarningSignal, "fetchedAt">`; the caller adds `fetchedAt`). -/
structure WarningSignalCore where
  hasActiveWarning : Bool
  hasWarningWithin2Hours : Bool
  hasWarningLaterToday : Bool
  activeWarningSeverity : Option Severity
  nextWarningOnset : Option String
  nextWarningSeverity : Option Severity
deriving DecidableEq, Repr

/-- `buildWarningSignal` from `api/aemet-warnings.ts`.  The JS
`Array.prototype.sort` (guaranteed stable) is modelled by
`List.insertionSort`, which is stable for the total relation `onsetLE`. -/
def buildWarningSignal (env : Runtime) (warnings : List AemetWarning) (now : Int) :
    WarningSignalCore :=
  let relevantWarnings := warnings.filter (fun warning => isRelevantWarning warning)
  let activeWarnings :=
    relevantWarnings.filter (fun warning => isWarningActive env warning now)
  let upcomingWarnings :=
    List.insertionSort onsetLE (upcomingEntries env relevantWarnings now)
  let nextUpcoming := upcomingWarnings.head?
  { hasActiveWarning := decide (0 < activeWarnings.length)
    hasWarningWithin2Hours :=
      match nextUpcoming with
      | some e => decide (e.2 - now ≤ CLOSING_SOON_WINDOW_MS)
      | none => false
    hasWarningLaterToday :=
      match nextUpcoming with
      | some e =>
        !(decide (e.2 - now ≤ CLOSING_SOON_WINDOW_MS)) &&
          decide (env.dateKey e.2 = env.dateKey now)
      | none => false
    activeWarningSeverity := pickHighestSeverity activeWarnings
    nextWarningOnset :=
      match nextUpcoming with
      | some e => some (env.toIso e.2)
      | none => none
    nextWarningSeverity :=
      match nextUpcoming with
      | some e => normalizeSeverity e.1.nivel
      | none => none }

/-- Advisory states of `src/utils/closureAdvisory.ts`
(`ClosureAdvisoryState`). -/
inductive ClosureAdvisoryState where
  | none
  | likely_closed_now
  | closing_soon
  | closing_later_today
deriving DecidableEq, Repr

/-- The `ClosureAdvisory` record of `src/utils/closureAdvisory.ts`. -/
structure ClosureAdvisory where
  state : ClosureAdvisoryState
  nextWarningOnset : Option String
deriving DecidableEq, Repr

/-- The `WeatherWarningSignal` interface of `src/types.ts` (the full
seven-field shape consumed by the advisory resolver). -/
structure WeatherWarningSignal where
  hasActiveWarning : Bool
  hasWarningWithin2Hours : Bool
  hasWarningLaterToday : Bool
  activeWarningSeverity : Option Severity
  nextWarningOnset : Option String
  nextWarningSeverity : Option Severity
  fetchedAt : Option String
deriving DecidableEq, Repr

/-- `resolveClosureAdvisory` from `src/utils/closureAdvisory.ts`.  The
status code is `Option Nat` (`StatusCode | null | undefined` in the
source); the JS guard `!code` is falsy for both an absent code and the
numeric value 0, hence the explicit `some 0` case. -/
def resolveClosureAdvisory (code : Option Nat)
    (weather : Option WeatherWarningSignal) : ClosureAdvisory :=
  match code, weather with
  | some c, some w =>
    if c = 0 then { state := .none, nextWarningOnset := none }
    else if 5 ≤ c then { state := .none, nextWarningOnset := none }
    else if w.hasActiveWarning then
      { state := .likely_closed_now, nextWarningOnset := w.nextWarningOnset }
    else if w.hasWarningWithin2Hours then
      { state := .closing_soon, nextWarningOnset := w.nextWarningOnset }
    else if w.hasWarningLaterToday then
      { state := .closing_later_today, nextWarningOnset := w.nextWarningOnset }
    else { state := .none, nextWarningOnset := none }
  | _, _ => { state := .none, nextWarningOnset := none }

/-- Display modes of `src/utils/primaryStatus.ts` (`PrimaryStatusMode`). -/
inductive PrimaryStatusMode where
  | official
  | predicted_closed
  | closing
deriving DecidableEq, Repr

/-- The `PrimaryStatusResolution` record of `src/utils/primaryStatus.ts`. -/
structure PrimaryStatusResolution where
  mode : PrimaryStatusMode
  themeCode : Nat
deriving DecidableEq, Repr

/-- `resolvePrimaryStatus` from `src/utils/primaryStatus.ts`.  As above,
the JS guard `!code` also catches the numeric value 0. -/
def resolvePrimaryStatus (code : Option Nat) (advisoryState : ClosureAdvisoryState) :
    PrimaryStatusResolution :=
  match code with
  | none => { mode := .official, themeCode := 1 }
  | some c =>
    if c = 0 then { mode := .official, themeCode := 1 }
    else if 5 ≤ c then { mode := .official, themeCode := c }
    else if advisoryState = ClosureAdvisoryState.likely_closed_now then
      { mode := .predicted_closed, themeCode := 6 }
    else if advisoryState = ClosureAdvisoryState.closing_soon then
      { mode := .closing, themeCode := 4 }
    else { mode := .official, themeCode := c }

/-- `readTarAscii` from `api/aemet-warnings.ts`: build a string from the
bytes of a header field, stopping at the first NUL byte
(`String.fromCharCode` per byte). -/
def readTarAscii : List Nat → String
  | [] => ""
  | b :: bs =>
    if b = 0 then ""
    else String.singleton (Char.ofNat b) ++ readTarAscii bs

/-- Model of JS `Number.parseInt(s, 8)` on an already-trimmed string: an
optional sign followed by the longest prefix of octal digits; no octal
digit at all gives NaN, modelled as `none`. -/
def parseJsIntOctal (s : String) : Option Int :=
  let signSplit : Int × List Char :=
    match s.data with
    | '-' :: rest => (-1, rest)
    | '+' :: rest => (1, rest)
    | rest => (1, rest)
  let digits := signSplit.2.takeWhile (fun c => '0' ≤ c && c ≤ '7')
  if digits.isEmpty then none
  else
    some (signSplit.1 *
      Int.ofNat (digits.foldl (fun acc c => acc * 8 + (c.toNat - '0'.toNat)) 0))

/-- `parseTarFileSize` from `api/aemet-warnings.ts`: read the 12-byte
octal size field at offset 124 of a header block.  An empty (trimmed)
field is size 0; a field that does not parse as a non-negative octal
number is `none`.  `readTarAscii` stops at the first NUL byte, so the
source's removal of NUL characters after trimming is the identity and has
no counterpart here. -/
def parseTarFileSize (header : List Nat) : Option Nat :=
  let sizeField := (header.drop 124).take 12
  let octalSize := jsTrim (readTarAscii sizeField)
  if octalSize = "" then some 0
  else
    match parseJsIntOctal octalSize with
    | none => none
    | some parsed => if parsed < 0 then none else some parsed.toNat

/-- `extractXmlDocumentsFromText` from `api/aemet-warnings.ts`: the RegExp
scan (modelled by `Runtime.alertMatches`) followed by trimming and
dropping empty strings (`filter(Boolean)`). -/
def extractXmlDocumentsFromText (env : Runtime) (rawText : String) : List String :=
  ((env.alertMatches rawText).map (fun xml => jsTrim xml)).filter (fun s => !(s = ""))

/-- The header-walking loop of `extractXmlDocumentsFromTarBuffer`, with
the current offset and the documents collected so far made explicit.
Each step reads a 512-byte header block, stops on an all-zero block,
aborts with `[]` on an unparseable size field or an out-of-range next
offset, and otherwise appends the documents scanned from the entry
content. -/
def tarLoop (env : Runtime) (bytes : List Nat) (offset : Nat) (acc : List String) :
    List String :=
  if h : offset + TAR_BLOCK_SIZE ≤ bytes.length then
    let header := (bytes.drop offset).take TAR_BLOCK_SIZE
    if header.all (fun b => b == 0) then acc
    else
      match parseTarFileSize header with
      | none => []
      | some fileSize =>
        let dataStart := offset + TAR_BLOCK_SIZE
        let paddedSize :=
          ((fileSize + TAR_BLOCK_SIZE - 1) / TAR_BLOCK_SIZE) * TAR_BLOCK_SIZE
        let nextOffset := dataStart + paddedSize
        if h2 : bytes.length < nextOffset then []
        else
          let acc2 :=
            if 0 < fileSize then
              let fileText := env.decode ((bytes.drop dataStart).take fileSize)
              let found := extractXmlDocumentsFromText env fileText
              if 0 < found.length then acc ++ found else acc
            else acc
          tarLoop env bytes nextOffset acc2
  else acc
termination_by bytes.length - offset
decreasing_by
  simp only [not_lt, TAR_BLOCK_SIZE] at h h2 ⊢
  omega

/-- `extractXmlDocumentsFromTarBuffer` from `api/aemet-warnings.ts`:
reject buffers shorter than one block, then walk headers from offset 0
with an empty accumulator. -/
def extractXmlDocumentsFromTarBuffer (env : Runtime) (bytes : List Nat) : List String :=
  if bytes.length < TAR_BLOCK_SIZE then []
  else tarLoop env bytes 0 []

/-- `extractXmlDocuments` from `api/aemet-warnings.ts`: archive extraction
first, then the plain-text scan of the UTF-8 decoded buffer, then the
empty-versus-error distinction on the decoded text.  The thrown `Error`
is modelled as `Except.error` carrying the message. -/
def extractXmlDocuments (env : Runtime) (rawBuffer : List Nat) (contentType : String) :
    Except String (List String) :=
  let tarXmlDocs := extractXmlDocumentsFromTarBuffer env rawBuffer
  if 0 < tarXmlDocs.length then Except.ok tarXmlDocs
  else
    let rawText := env.decode rawBuffer
    let xmlMatches := extractXmlDocumentsFromText env rawText
    if 0 < xmlMatches.length then Except.ok xmlMatches
    else if (jsTrim rawText).length = 0 then Except.ok []
    else
      Except.error
        ("No CAP XML alerts found in AEMET datos response (content-type: " ++
          contentType ++ ", length: " ++ toString rawText.length ++ ")")

/-- Advisory state exactly as claim C1 words it: `none` when the code or
the signal is absent, `none` when the code is at least 5, and otherwise
the first of active / within-2-hours / later-today that is set. -/
def advisoryStateSpec (code : Option Nat) (weather : Option WeatherWarningSignal) :
    ClosureAdvisoryState :=
  match code, weather with
  | some c, some w =>
    if 5 ≤ c then .none
    else if w.hasActiveWarning then .likely_closed_now
    else if w.hasWarningWithin2Hours then .closing_soon
    else if w.hasWarningLaterToday then .closing_later_today
    else .none
  | _, _ => .none

/-- Primary status exactly as claim C2 words it: default-open theme for
an absent code, the official code when it is at least 5 regardless of the
advisory, the predicted-closed and closing overrides, and the official
code otherwise. -/
def primaryStatusSpec (code : Option Nat) (advisoryState : ClosureAdvisoryState) :
    PrimaryStatusResolution :=
  match code with
  | none => { mode := .official, themeCode := 1 }
  | some c =>
    if 5 ≤ c then { mode := .official, themeCode := c }
    else
      match advisoryState with
      | .likely_closed_now => { mode := .predicted_closed, themeCode := 6 }
      | .closing_soon => { mode := .closing, themeCode := 4 }
      | _ => { mode := .official, themeCode := c }

/-- Activity exactly as claim C4 words it: each bound must be absent
(`Option.none`) or must parse and bracket `now`; any present string that
fails to parse forces `false`. -/
def statedActive (env : Runtime) (warning : AemetWarning) (now : Int) : Bool :=
  (match warning.onset with
   | none => true
   | some s =>
     match env.parse s with
     | none => false
     | some onset => decide (onset ≤ now)) &&
  (match warning.expires with
   | none => true
   | some s =>
     match env.parse s with
     | none => false
     | some expires => decide (now < expires))

/-- Relevance exactly as claim C5 words it: a conjunction of the presence
of the phenomenon field, the presence of a zone containing the target
zone code as a substring, and the leading phenomenon-code segment being
one of the two closure-relevant codes. -/
def statedRelevant (warning : AemetWarning) : Bool :=
  warning.fenomeno.isSome &&
  (match warning.zona with
   | none => false
   | some zona => containsSubstr zona MADRID_RETIRO_ZONE) &&
  (match warning.fenomeno with
   | none => false
   | some fenomeno =>
     let code := jsLeadingCode fenomeno
     code = "VI" || code = "NE")

/-- Concrete runtime used to instantiate the parametric theorems: dates
are decimal-digit strings denoting epoch milliseconds (so the empty
string and any non-digit string fail to parse, as with JS `new Date`),
the calendar-date key is the epoch day number, decoding ignores its
input, and the alert scan finds nothing. -/
def envTest : Runtime where
  parse := fun s =>
    if s = "" then none
    else if s.data.all (fun c => c.isDigit) then
      some (Int.ofNat (s.data.foldl (fun acc c => acc * 10 + (c.toNat - '0'.toNat)) 0))
    else none
  dateKey := fun t => toString (t / 86400000)
  toIso := fun t => toString t
  decode := fun _ => ""
  alertMatches := fun _ => []

/-- Concrete signal with every predictive flag raised, used to exercise
the precedence rules at a concrete input. -/
def wTest : WeatherWarningSignal where
  hasActiveWarning := true
  hasWarningWithin2Hours := true
  hasWarningLaterToday := true
  activeWarningSeverity := some .severe
  nextWarningOnset := some "2026-02-05T10:00:00Z"
  nextWarningSeverity := some .severe
  fetchedAt := none

/-- Head of an ordered insertion into a non-empty list: the inserted
element when it is not above the old head, the old head otherwise. -/
theorem head_orderedInsert_cons (a b : AemetWarning × Int) (t : List (AemetWarning × Int)) :
    (List.orderedInsert onsetLE a (b :: t)).head? =
      some (if a.2 ≤ b.2 then a else b) := by
  by_cases h : onsetLE a b
  · rw [List.orderedInsert, if_pos h, if_pos (show a.2 ≤ b.2 from h)]
    rfl
  · rw [List.orderedInsert, if_neg h, if_neg (show ¬a.2 ≤ b.2 from h)]
    rfl

/-- The head of the stable ascending sort used in `buildWarningSignal` is
exactly `firstMin` of the unsorted list. -/
theorem head_insertionSort_eq_firstMin (l : List (AemetWarning × Int)) :
    (List.insertionSort onsetLE l).head? = firstMin l := by
  induction l with
  | nil => rfl
  | cons a t ih =>
    rw [List.insertionSort]
    cases hs : List.insertionSort onsetLE t with
    | nil =>
      have ht : firstMin t = none := by rw [← ih, hs]; rfl
      rw [firstMin, ht]
      rfl
    | cons b t2 =>
      have ht : firstMin t = some b := by rw [← ih, hs]; rfl
      rw [head_orderedInsert_cons, firstMin, ht]

/-- `firstMin` is `none` exactly on the empty list. -/
theorem firstMin_eq_none_iff (l : List (AemetWarning × Int)) :
    firstMin l = none ↔ l = [] := by
  cases l with
  | nil => simp [firstMin]
  | cons a t =>
    rw [firstMin]
    constructor
    · intro h
      cases ht : firstMin t <;> rw [ht] at h <;> simp at h
    · intro h
      exact (List.cons_ne_nil a t h).elim

/-- The element selected by `firstMin` has minimal onset time. -/
theorem firstMin_min (l : List (AemetWarning × Int)) (e : AemetWarning × Int)
    (h : firstMin l = some e) : ∀ f ∈ l, e.2 ≤ f.2 := by
  induction l generalizing e with
  | nil => simp [firstMin] at h
  | cons a t ih =>
    rw [firstMin] at h
    cases ht : firstMin t with
    | none =>
      have htnil : t = [] := (firstMin_eq_none_iff t).mp ht
      subst htnil
      rw [ht] at h
      simp only [Option.some.injEq] at h
      subst h
      simp
    | some m =>
      rw [ht] at h
      simp only [Option.some.injEq] at h
      subst h
      intro f hf
      by_cases hm : a.2 ≤ m.2
      · rw [if_pos hm]
        rcases List.mem_cons.mp hf with rfl | hf2
        · exact le_refl _
        · exact le_trans hm (ih m ht f hf2)
      · rw [if_neg hm]
        rcases List.mem_cons.mp hf with rfl | hf2
        · exact le_of_lt (lt_of_not_le hm)
        · exact ih m ht f hf2

/-- The element selected by `firstMin` is the earliest position achieving
the minimum: everything before it is strictly larger. -/
theorem firstMin_before (l : List (AemetWarning × Int)) (e : AemetWarning × Int)
    (h : firstMin l = some e) :
    ∃ l1 l2, l = l1 ++ e :: l2 ∧ ∀ f ∈ l1, e.2 < f.2 := by
  induction l generalizing e with
  | nil => simp [firstMin] at h
  | cons a t ih =>
    rw [firstMin] at h
    cases ht : firstMin t with
    | none =>
      rw [ht] at h
      simp only [Option.some.injEq] at h
      subst h
      exact ⟨[], t, rfl, by simp⟩
    | some m =>
      rw [ht] at h
      simp only [Option.some.injEq] at h
      by_cases hm : a.2 ≤ m.2
      · rw [if_pos hm] at h
        subst h
        exact ⟨[], t, rfl, by simp⟩
      · rw [if_neg hm] at h
        subst h
        obtain ⟨l1, l2, hsplit, hlt⟩ := ih m ht
        refine ⟨a :: l1, l2, by rw [hsplit]; rfl, ?_⟩
        intro f hf
        rcases List.mem_cons.mp hf with rfl | hf2
        · exact lt_of_not_le hm
        · exact hlt f hf2

/-- `buildWarningSignal` with the head of the stable sort replaced by
`firstMin`; every claim about the builder is proved through this form. -/
theorem buildWarningSignal_eq (env : Runtime) (warnings : List AemetWarning) (now : Int) :
    buildWarningSignal env warnings now =
      { hasActiveWarning :=
          decide (0 < ((warnings.filter (fun w => isRelevantWarning w)).filter
            (fun w => isWarningActive env w now)).length)
        hasWarningWithin2Hours :=
          match firstMin (upcomingEntries env
              (warnings.filter (fun w => isRelevantWarning w)) now) with
          | some e => decide (e.2 - now ≤ CLOSING_SOON_WINDOW_MS)
          | none => false
        hasWarningLaterToday :=
          match firstMin (upcomingEntries env
              (warnings.filter (fun w => isRelevantWarning w)) now) with
          | some e =>
            !(decide (e.2 - now ≤ CLOSING_SOON_WINDOW_MS)) &&
              decide (env.dateKey e.2 = env.dateKey now)
          | none => false
        activeWarningSeverity :=
          pickHighestSeverity ((warnings.filter (fun w => isRelevantWarning w)).filter
            (fun w => isWarningActive env w now))
        nextWarningOnset :=
          match firstMin (upcomingEntries env
              (warnings.filter (fun w => isRelevantWarning w)) now) with
          | some e => some (env.toIso e.2)
          | none => none
        nextWarningSeverity :=
          match firstMin (upcomingEntries env
              (warnings.filter (fun w => isRelevantWarning w)) now) with
          | some e => normalizeSeverity e.1.nivel
          | none => none } := by
  simp only [buildWarningSignal, head_insertionSort_eq_firstMin]

/-- C8: for every list of alert records and every instant `now`, the
signal returned by `buildWarningSignal` never has `hasWarningWithin2Hours`
and `hasWarningLaterToday` both true. -/
theorem buildWarningSignal_flags_exclusive (env : Runtime) (warnings : List AemetWarning)
    (now : Int) :
    ((buildWarningSignal env warnings now).hasWarningWithin2Hours &&
      (buildWarningSignal env warnings now).hasWarningLaterToday) = false := by
  rw [buildWarningSignal_eq]
  cases h : firstMin (upcomingEntries env
      (warnings.filter (fun w => isRelevantWarning w)) now) with
  | none => rfl
  | some e =>
    simp only [h]
    cases hc : decide (e.2 - now ≤ CLOSING_SOON_WINDOW_MS) <;> simp

/-- C9: the signal returned by `buildWarningSignal` satisfies the null
consistency invariants: no active warning means a null active severity,
and a null next onset means a null next severity and both upcoming flags
false. -/
theorem buildWarningSignal_null_consistency (env : Runtime) (warnings : List AemetWarning)
    (now : Int) :
    ((buildWarningSignal env warnings now).hasActiveWarning = false →
      (buildWarningSignal env warnings now).activeWarningSeverity = none) ∧
    ((buildWarningSignal env warnings now).nextWarningOnset = none →
      (buildWarningSignal env warnings now).nextWarningSeverity = none ∧
      (buildWarningSignal env warnings now).hasWarningWithin2Hours = false ∧
      (buildWarningSignal env warnings now).hasWarningLaterToday = false) := by
  rw [buildWarningSignal_eq]
  constructor
  · intro h
    simp only [decide_eq_false_iff_not, not_lt, Nat.le_zero,
      List.length_eq_zero] at h
    rw [h]
    rfl
  · intro h
    cases hf : firstMin (upcomingEntries env
        (warnings.filter (fun w => isRelevantWarning w)) now) with
    | none => simp [hf]
    | some e => rw [hf] at h; simp at h

/-- C9 witness: the invariants instantiated on the empty record list. -/
theorem buildWarningSignal_null_consistency_witness :
    (buildWarningSignal envTest [] 0).activeWarningSeverity = none ∧
    (buildWarningSignal envTest [] 0).nextWarningSeverity = none ∧
    (buildWarningSignal envTest [] 0).hasWarningWithin2Hours = false ∧
    (buildWarningSignal envTest [] 0).hasWarningLaterToday = false :=
  ⟨(buildWarningSignal_null_consistency envTest [] 0).1 rfl,
   (buildWarningSignal_null_consistency envTest [] 0).2 rfl⟩

/-- C3: `buildWarningSignal` selects, among relevant records whose onset
parses and is strictly after `now` (the `upcomingEntries`), the entry with
the earliest onset, ties broken by input order (everything before the
selected entry is strictly later); the next fields come from that entry,
`hasWarningWithin2Hours` holds iff its onset is within the 2-hour window,
`hasWarningLaterToday` holds iff it is not within the window and shares
the calendar-date key with `now`; with no upcoming entry both flags are
false and both next fields are null. -/
theorem buildWarningSignal_upcoming_claim (env : Runtime) (warnings : List AemetWarning)
    (now : Int) :
    (upcomingEntries env (warnings.filter (fun w => isRelevantWarning w)) now = [] →
      (buildWarningSignal env warnings now).nextWarningOnset = none ∧
      (buildWarningSignal env warnings now).nextWarningSeverity = none ∧
      (buildWarningSignal env warnings now).hasWarningWithin2Hours = false ∧
      (buildWarningSignal env warnings now).hasWarningLaterToday = false) ∧
    (upcomingEntries env (warnings.filter (fun w => isRelevantWarning w)) now ≠ [] →
      ∃ e l1 l2,
        upcomingEntries env (warnings.filter (fun w => isRelevantWarning w)) now =
          l1 ++ e :: l2 ∧
        (∀ f ∈ upcomingEntries env (warnings.filter (fun w => isRelevantWarning w)) now,
          e.2 ≤ f.2) ∧
        (∀ f ∈ l1, e.2 < f.2) ∧
        (buildWarningSignal env warnings now).nextWarningOnset = some (env.toIso e.2) ∧
        (buildWarningSignal env warnings now).nextWarningSeverity =
          normalizeSeverity e.1.nivel ∧
        ((buildWarningSignal env warnings now).hasWarningWithin2Hours = true ↔
          e.2 - now ≤ CLOSING_SOON_WINDOW_MS) ∧
        ((buildWarningSignal env warnings now).hasWarningLaterToday = true ↔
          ¬e.2 - now ≤ CLOSING_SOON_WINDOW_MS ∧ env.dateKey e.2 = env.dateKey now)) := by
  rw [buildWarningSignal_eq]
  cases hf : firstMin (upcomingEntries env
      (warnings.filter (fun w => isRelevantWarning w)) now) with
  | none =>
    have hnil := (firstMin_eq_none_iff _).mp hf
    exact ⟨fun _ => by simp [hf], fun hne => (hne hnil).elim⟩
  | some e =>
    constructor
    · intro h0
      rw [h0] at hf
      simp [firstMin] at hf
    · intro _
      obtain ⟨l1, l2, hsplit, hbefore⟩ := firstMin_before _ _ hf
      refine ⟨e, l1, l2, hsplit, firstMin_min _ _ hf, hbefore, ?_, ?_, ?_, ?_⟩
      · simp [hf]
      · simp [hf]
      · simp [hf]
      · simp [hf, Bool.and_eq_true, decide_eq_true_iff]

/-- C3 witness: the no-upcoming-record case instantiated on the empty
record list. -/
theorem buildWarningSignal_upcoming_claim_witness :
    (buildWarningSignal envTest [] 0).nextWarningOnset = none ∧
    (buildWarningSignal envTest [] 0).nextWarningSeverity = none ∧
    (buildWarningSignal envTest [] 0).hasWarningWithin2Hours = false ∧
    (buildWarningSignal envTest [] 0).hasWarningLaterToday = false :=
  (buildWarningSignal_upcoming_claim envTest [] 0).1 rfl

/-- C1: for every status code (1 to 6, or absent) and every predictive
signal, `resolveClosureAdvisory` returns the state given by the strict
precedence order: `none` when the code or the signal is absent, `none`
when the code is at least 5 even when `hasActiveWarning` is set, then
`likely_closed_now`, `closing_soon`, `closing_later_today` in order of
the signal flags, and `none` otherwise. -/
theorem resolveClosureAdvisory_claim (code : Option Nat)
    (weather : Option WeatherWarningSignal)
    (hcode : ∀ c, code = some c → 1 ≤ c ∧ c ≤ 6) :
    (resolveClosureAdvisory code weather).state = advisoryStateSpec code weather := by
  cases code with
  | none => cases weather <;> rfl
  | some c =>
    cases weather with
    | none => rfl
    | some w =>
      obtain ⟨h1, _⟩ := hcode c rfl
      simp only [resolveClosureAdvisory, advisoryStateSpec]
      rw [if_neg (show ¬c = 0 by omega)]
      by_cases h5 : 5 ≤ c
      · rw [if_pos h5, if_pos h5]
      · rw [if_neg h5, if_neg h5]
        cases ha : w.hasActiveWarning <;>
          cases h2 : w.hasWarningWithin2Hours <;>
          cases h3 : w.hasWarningLaterToday <;>
          simp [ha, h2, h3]

/-- C1 witness: with code 1 and every flag raised, the active warning
takes precedence and the advisory is `likely_closed_now`. -/
theorem resolveClosureAdvisory_claim_witness :
    (resolveClosureAdvisory (some 1) (some wTest)).state =
      ClosureAdvisoryState.likely_closed_now :=
  (resolveClosureAdvisory_claim (some 1) (some wTest)
    (fun c hc => by injection hc with h; omega)).trans rfl

/-- C2: for every status code (1 to 6, or absent) and every advisory
state, `resolvePrimaryStatus` returns the default-open official pair for
an absent code, the official pair for a code of at least 5 regardless of
the advisory, the predicted-closed and closing overrides for the two
strong advisories, and the official pair otherwise. -/
theorem resolvePrimaryStatus_claim (code : Option Nat)
    (advisoryState : ClosureAdvisoryState)
    (hcode : ∀ c, code = some c → 1 ≤ c ∧ c ≤ 6) :
    resolvePrimaryStatus code advisoryState = primaryStatusSpec code advisoryState := by
  cases code with
  | none => rfl
  | some c =>
    obtain ⟨h1, _⟩ := hcode c rfl
    simp only [resolvePrimaryStatus, primaryStatusSpec]
    rw [if_neg (show ¬c = 0 by omega)]
    by_cases h5 : 5 ≤ c
    · rw [if_pos h5, if_pos h5]
    · rw [if_neg h5, if_neg h5]
      cases advisoryState <;> simp

/-- C2 witness: an official closure (code 6) is never overridden, even by
a `likely_closed_now` advisory. -/
theorem resolvePrimaryStatus_claim_witness :
    resolvePrimaryStatus (some 6) ClosureAdvisoryState.likely_closed_now =
      { mode := PrimaryStatusMode.official, themeCode := 6 } :=
  (resolvePrimaryStatus_claim (some 6) ClosureAdvisoryState.likely_closed_now
    (fun c hc => by injection hc with h; omega)).trans rfl

/-- C10: the advisory returned by `resolveClosureAdvisory` carries the
signal's `nextWarningOnset` whenever its state is not `none`, and a null
`nextWarningOnset` whenever its state is `none`. -/
theorem resolveClosureAdvisory_onset_claim (code : Option Nat) (w : WeatherWarningSignal) :
    ((resolveClosureAdvisory code (some w)).state = ClosureAdvisoryState.none →
      (resolveClosureAdvisory code (some w)).nextWarningOnset = none) ∧
    ((resolveClosureAdvisory code (some w)).state ≠ ClosureAdvisoryState.none →
      (resolveClosureAdvisory code (some w)).nextWarningOnset = w.nextWarningOnset) := by
  cases code with
  | none => exact ⟨fun _ => rfl, fun h => absurd rfl h⟩
  | some c =>
    simp only [resolveClosureAdvisory]
    by_cases h0 : c = 0
    · rw [if_pos h0]
      exact ⟨fun _ => rfl, fun h => absurd rfl h⟩
    · rw [if_neg h0]
      by_cases h5 : 5 ≤ c
      · rw [if_pos h5]
        exact ⟨fun _ => rfl, fun h => absurd rfl h⟩
      · rw [if_neg h5]
        cases ha : w.hasActiveWarning <;>
          cases h2 : w.hasWarningWithin2Hours <;>
          cases h3 : w.hasWarningLaterToday <;>
          simp

/-- C10 witness: with code 1 and an active warning, the advisory state is
not `none` and the onset is passed through from the signal. -/
theorem resolveClosureAdvisory_onset_claim_witness :
    (resolveClosureAdvisory (some 1) (some wTest)).nextWarningOnset =
      some "2026-02-05T10:00:00Z" :=
  ((resolveClosureAdvisory_onset_claim (some 1) wTest).2 (by decide)).trans rfl

/-- One bound check of `isWarningActive`, characterised as the claim words
it, with an empty string behaving like an absent bound. -/
theorem activeBound_iff (env : Runtime) (o : Option String) (P : Int → Prop)
    [DecidablePred P] :
    (match o with
     | none => true
     | some s =>
       if s = "" then true
       else
         match env.parse s with
         | none => false
         | some t => decide (P t)) = true ↔
      (∀ s, o = some s → s ≠ "" → ∃ t, env.parse s = some t ∧ P t) := by
  cases o with
  | none => simp
  | some s =>
    have hred : (match some s with
        | none => true
        | some s =>
          if s = "" then true
          else
            match env.parse s with
            | none => false
            | some t => decide (P t)) =
        (if s = "" then true
         else
           match env.parse s with
           | none => false
           | some t => decide (P t)) := rfl
    rw [hred]
    by_cases hs : s = ""
    · subst hs
      simp
    · rw [if_neg hs]
      cases hp : env.parse s with
      | none => simp [hp, hs]
      | some t => simp [hp, hs]

/-- C4 (amended): `isWarningActive` is true iff each bound is absent or
empty, or parses to an instant on the active side of `now`; a present,
non-empty bound that fails to parse forces the result to false. -/
theorem isWarningActive_iff (env : Runtime) (warning : AemetWarning) (now : Int) :
    isWarningActive env warning now = true ↔
      ((∀ s, warning.onset = some s → s ≠ "" →
          ∃ t, env.parse s = some t ∧ t ≤ now) ∧
       (∀ s, warning.expires = some s → s ≠ "" →
          ∃ t, env.parse s = some t ∧ now < t)) := by
  rw [isWarningActive, Bool.and_eq_true]
  exact and_congr (activeBound_iff env warning.onset (fun t => t ≤ now))
    (activeBound_iff env warning.expires (fun t => now < t))

/-- C4 witness: both bounds present, parseable, and bracketing `now`. -/
theorem isWarningActive_iff_witness :
    isWarningActive envTest
      { onset := some "10", expires := some "20", nivel := none,
        fenomeno := none, zona := none } 15 = true :=
  (isWarningActive_iff envTest
    { onset := some "10", expires := some "20", nivel := none,
      fenomeno := none, zona := none } 15).mpr
    ⟨fun s hs _ => by injection hs with h; subst h; exact ⟨10, rfl, by omega⟩,
     fun s hs _ => by injection hs with h; subst h; exact ⟨20, rfl, by omega⟩⟩

/-- C4 counterexample: a record whose onset is the present but unparseable
empty string is reported active by `isWarningActive`, while the claim as
stated demands false for it; the empty string is falsy in JS, so the
source skips the onset check entirely. -/
theorem isWarningActive_claim_counterexample :
    isWarningActive envTest
      { onset := some "", expires := none, nivel := none,
        fenomeno := none, zona := none } 0 = true ∧
    statedActive envTest
      { onset := some "", expires := none, nivel := none,
        fenomeno := none, zona := none } 0 = false ∧
    envTest.parse "" = none :=
  ⟨rfl, rfl, rfl⟩

/-- C5: `isRelevantWarning` is exactly the order-independent conjunction
worded by the claim: phenomenon present, zone present and containing the
target zone code as a substring, and the leading phenomenon-code segment
(before the first semicolon, trimmed, upper-cased) equal to VI or NE. -/
theorem isRelevantWarning_claim (warning : AemetWarning) :
    isRelevantWarning warning = statedRelevant warning := by
  cases hf : warning.fenomeno with
  | none => simp [isRelevantWarning, statedRelevant, hf]
  | some f =>
    cases hz : warning.zona with
    | none => simp [isRelevantWarning, statedRelevant, hf, hz]
    | some z =>
      simp only [isRelevantWarning, statedRelevant, hf, hz, Option.isSome_some,
        Bool.true_and]
      by_cases hfe : f = ""
      · subst hfe
        rw [if_pos rfl]
        have hcode : jsLeadingCode "" = "" := rfl
        simp [hcode]
      · rw [if_neg hfe]
        by_cases hze : z = ""
        · subst hze
          rw [if_pos rfl]
          have hzero : containsSubstr "" MADRID_RETIRO_ZONE = false := rfl
          simp [hzero]
        · rw [if_neg hze]
          cases hcz : containsSubstr z MADRID_RETIRO_ZONE with
          | false => simp [hcz]
          | true =>
            simp only [hcz, Bool.not_true, Bool.false_eq_true, if_false,
              Bool.true_and]
            by_cases hcode : jsLeadingCode f = ""
            · rw [if_pos hcode]
              simp [hcode]
            · rw [if_neg hcode]
              rw [Bool.eq_iff_iff]
              simp [RELEVANT_WARNING_PREFIXES, List.contains]

/-- A string has length zero exactly when it is empty. -/
theorem string_length_eq_zero_iff (s : String) : s.length = 0 ↔ s = "" := by
  obtain ⟨d⟩ := s
  constructor
  · intro h
    have hd : d = [] := List.length_eq_zero.mp h
    subst hd
    rfl
  · intro h
    rw [h]
    rfl

/-- C6: `extractXmlDocuments` returns the archive documents when archive
extraction yields any; otherwise the plain-text scan of the decoded
buffer when it yields any; otherwise an empty list when the decoded text
is empty or whitespace-only; otherwise a descriptive error. -/
theorem extractXmlDocuments_claim (env : Runtime) (buf : List Nat) (ct : String) :
    (extractXmlDocumentsFromTarBuffer env buf ≠ [] →
      extractXmlDocuments env buf ct =
        Except.ok (extractXmlDocumentsFromTarBuffer env buf)) ∧
    (extractXmlDocumentsFromTarBuffer env buf = [] →
      (extractXmlDocumentsFromText env (env.decode buf) ≠ [] →
        extractXmlDocuments env buf ct =
          Except.ok (extractXmlDocumentsFromText env (env.decode buf))) ∧
      (extractXmlDocumentsFromText env (env.decode buf) = [] →
        (jsTrim (env.decode buf) = "" →
          extractXmlDocuments env buf ct = Except.ok []) ∧
        (jsTrim (env.decode buf) ≠ "" →
          ∃ msg, extractXmlDocuments env buf ct = Except.error msg))) := by
  constructor
  · intro h
    have hl : 0 < (extractXmlDocumentsFromTarBuffer env buf).length :=
      List.length_pos.mpr h
    simp only [extractXmlDocuments]
    rw [if_pos hl]
  · intro h
    constructor
    · intro h2
      have hl2 : 0 < (extractXmlDocumentsFromText env (env.decode buf)).length :=
        List.length_pos.mpr h2
      simp only [extractXmlDocuments, h]
      rw [if_neg (by simp), if_pos hl2]
    · intro h2
      have hl2 : ¬0 < (extractXmlDocumentsFromText env (env.decode buf)).length := by
        simp [h2]
      constructor
      · intro h3
        simp only [extractXmlDocuments, h]
        rw [if_neg (by simp), if_neg hl2, if_pos (by rw [h3]; rfl)]
      · intro h3
        simp only [extractXmlDocuments, h]
        rw [if_neg (by simp), if_neg hl2,
          if_neg (fun hz => h3 ((string_length_eq_zero_iff _).mp hz))]
        exact ⟨_, rfl⟩

/-- C6 witness: an empty buffer is not an archive, decodes to the empty
string, and so yields the empty list rather than an error. -/
theorem extractXmlDocuments_claim_witness :
    extractXmlDocuments envTest [] "application/x-tar" = Except.ok [] :=
  (((extractXmlDocuments_claim envTest [] "application/x-tar").2 rfl).2 rfl).1 rfl

/-- C7: the archive reader returns the empty list for a buffer shorter
than one block or with an all-zero first header block, and the header
walk aborts to the empty list, discarding any documents already
collected, whenever a header's size field fails to parse as a
non-negative octal number or the computed next header offset exceeds the
buffer length. -/
theorem extractXmlDocumentsFromTarBuffer_claim (env : Runtime) (bytes : List Nat) :
    (bytes.length < TAR_BLOCK_SIZE → extractXmlDocumentsFromTarBuffer env bytes = []) ∧
    (TAR_BLOCK_SIZE ≤ bytes.length →
      ((bytes.drop 0).take TAR_BLOCK_SIZE).all (fun b => b == 0) = true →
      extractXmlDocumentsFromTarBuffer env bytes = []) ∧
    (∀ offset acc, offset + TAR_BLOCK_SIZE ≤ bytes.length →
      ((bytes.drop offset).take TAR_BLOCK_SIZE).all (fun b => b == 0) = false →
      (parseTarFileSize ((bytes.drop offset).take TAR_BLOCK_SIZE) = none →
        tarLoop env bytes offset acc = []) ∧
      (∀ fileSize,
        parseTarFileSize ((bytes.drop offset).take TAR_BLOCK_SIZE) = some fileSize →
        bytes.length < offset + TAR_BLOCK_SIZE +
          ((fileSize + TAR_BLOCK_SIZE - 1) / TAR_BLOCK_SIZE) * TAR_BLOCK_SIZE →
        tarLoop env bytes offset acc = [])) := by
  refine ⟨?_, ?_, ?_⟩
  · intro h
    rw [extractXmlDocumentsFromTarBuffer, if_pos h]
  · intro h hz
    rw [extractXmlDocumentsFromTarBuffer, if_neg (not_lt.mpr h)]
    rw [tarLoop, dif_pos (show 0 + TAR_BLOCK_SIZE ≤ bytes.length by omega)]
    rw [if_pos hz]
  · intro offset acc h hz
    constructor
    · intro hp
      rw [tarLoop, dif_pos h]
      rw [if_neg (by simp [hz])]
      simp only [hp]
    · intro fileSize hp hov
      rw [tarLoop, dif_pos h]
      rw [if_neg (by simp [hz])]
      simp only [hp]
      rw [dif_pos hov]

set_option maxRecDepth 4096 in
/-- C7 witness: a single 512-byte block of 0x01 bytes has an unparseable
size field, so the walk aborts and discards the already-collected
document; an empty buffer is shorter than one block. -/
theorem extractXmlDocumentsFromTarBuffer_claim_witness :
    tarLoop envTest (List.replicate 512 1) 0 ["doc"] = [] ∧
    extractXmlDocumentsFromTarBuffer envTest [] = [] :=
  ⟨((extractXmlDocumentsFromTarBuffer_claim envTest (List.replicate 512 1)).2.2 0 ["doc"]
      (by decide) (by decide)).1 (by decide),
   (extractXmlDocumentsFromTarBuffer_claim envTest []).1 (by decide)⟩
